import Mathlib

/-!
Verification development for the kess operational control plane
(`src/kess/utils/shutdown.py`, `src/kess/health/server.py`,
`src/kess/health/metrics.py`), as a shallow embedding in Lean 4.

Modelling conventions:
* Wall-clock instants are integers (Python uses floats from `time.time()`;
  the arithmetic the code performs on them is ordinary subtraction,
  comparison and `max`, which Int models exactly).
* A shutdown hook is a zero-argument callable; calling it either returns
  normally or raises an exception.  We model a hook as an identifier
  together with the outcome of calling it (`Except String Unit`).
* A readiness check runs in a worker pool under a timeout; the observable
  outcome of one evaluation is either a normal return value, a timeout, or
  a raised exception.  `CheckBehavior` records that observable outcome.
* Python `threading.Event` flags become `Bool` fields; explicit state
  passing replaces mutation.  Locks serialize access and have no other
  observable effect, so lock acquisition is not represented.
-/

namespace Kess

/-! ## Shutdown manager (`src/kess/utils/shutdown.py`) -/

/-- A registered shutdown hook: its identity (Python logs
`hook.__name__`; any identifier works) and the outcome of calling it:
`Except.ok ()` for a normal return, `Except.error m` for a raised
exception with message `m`. -/
structure Hook where
  id : Nat
  result : Except String Unit

/-- State of `ShutdownManager`: `grace_period_seconds` from `__init__`,
the two `threading.Event` flags `_shutdown_requested` and
`_shutdown_complete`, `_shutdown_start_time` (`None` until a request is
accepted), and the append-only `_shutdown_hooks` list. -/
structure ShutdownState where
  grace_period_seconds : Int
  shutdown_requested : Bool
  shutdown_complete : Bool
  shutdown_start_time : Option Int
  shutdown_hooks : List Hook

/-- `ShutdownManager.__init__(grace_period_seconds)`. -/
def initManager (g : Int) : ShutdownState :=
  { grace_period_seconds := g
    shutdown_requested := false
    shutdown_complete := false
    shutdown_start_time := none
    shutdown_hooks := [] }

/-- `ShutdownManager.register_shutdown_hook`: appends to the hook list. -/
def register_shutdown_hook (s : ShutdownState) (h : Hook) : ShutdownState :=
  { s with shutdown_hooks := s.shutdown_hooks ++ [h] }

/-- `ShutdownManager.request_shutdown` at wall-clock instant `now`:
if `_shutdown_requested` is already set the duplicate request is ignored;
otherwise the flag is set and `_shutdown_start_time` recorded.
`_signal_handler` (SIGTERM/SIGINT) delegates to this same method, so a
signal delivery is the same transition. -/
def request_shutdown (s : ShutdownState) (now : Int) : ShutdownState :=
  if s.shutdown_requested then s
  else { s with shutdown_requested := true, shutdown_start_time := some now }

/-- The hook loop inside `ShutdownManager.execute_shutdown`: each hook is
called inside `try/except Exception`, so a raised exception is caught and
logged and the loop continues with the next hook.  The returned list is
the trace of hook calls actually performed, in order. -/
def runHooks : List Hook → List Nat
  | [] => []
  | h :: rest =>
      match h.result with
      | Except.ok _ => h.id :: runHooks rest
      | Except.error _ => h.id :: runHooks rest

/-- `ShutdownManager.execute_shutdown`: if `_shutdown_requested` is not
set, warn and return without doing anything; otherwise snapshot the hook
list under the lock, call every hook (exceptions caught per hook), then
`shutdown_complete()` sets the complete flag.  Returns the post-state and
the trace of hook calls performed. -/
def execute_shutdown (s : ShutdownState) : ShutdownState × List Nat :=
  if s.shutdown_requested then
    ({ s with shutdown_complete := true }, runHooks s.shutdown_hooks)
  else
    (s, [])

/-- `ShutdownManager.get_remaining_grace_time` at wall-clock instant
`now`.  Python tests `if not self._shutdown_start_time:`, which is also
true for the float `0.0`, hence the extra `t = 0` case. -/
def get_remaining_grace_time (s : ShutdownState) (now : Int) : Int :=
  match s.shutdown_start_time with
  | none => s.grace_period_seconds
  | some t =>
      if t = 0 then s.grace_period_seconds
      else max 0 (s.grace_period_seconds - (now - t))

/-- One external stimulus to a `ShutdownManager`: a trigger attempt
(`request_shutdown` call or signal delivery, which calls it) at a given
instant, or an `execute_shutdown` call. -/
inductive Event where
  | request (now : Int)
  | execute
deriving DecidableEq

/-- Run a sequence of events against a manager, accumulating the trace of
hook calls performed by the `execute_shutdown` calls. -/
def runEvents : ShutdownState → List Event → ShutdownState × List Nat
  | s, [] => (s, [])
  | s, Event.request t :: rest => runEvents (request_shutdown s t) rest
  | s, Event.execute :: rest =>
      let step := execute_shutdown s
      let tail := runEvents step.1 rest
      (tail.1, step.2 ++ tail.2)

/-- Manager with one registered hook, used to exercise the double-execute
behaviour. -/
def oneHookManager : ShutdownState :=
  { initManager 10 with shutdown_hooks := [⟨0, Except.ok ()⟩] }

/-- A request followed by two execute calls. -/
def doubleExecuteEvents : List Event :=
  [Event.request 1, Event.execute, Event.execute]

/-- Manager with two well-behaved hooks for the single-execute witness. -/
def twoHookManager : ShutdownState :=
  { initManager 10 with shutdown_hooks := [⟨0, Except.ok ()⟩, ⟨1, Except.ok ()⟩] }

/-- Two duplicate requests followed by one execute call. -/
def singleExecuteEvents : List Event :=
  [Event.request 1, Event.request 2, Event.execute]

/-- Manager in the requested state whose first hook raises and whose
second hook is well-behaved. -/
def raisingHookManager : ShutdownState :=
  { grace_period_seconds := 10
    shutdown_requested := true
    shutdown_complete := false
    shutdown_start_time := some 1
    shutdown_hooks := [⟨0, Except.error "boom"⟩, ⟨1, Except.ok ()⟩] }

/-! ## Health server (`src/kess/health/server.py`) -/

/-- The value a readiness check returns when it returns normally:
either the documented `(ok, reason)` tuple or a bare boolean
(`_safe_check_wrapper` accepts both). -/
inductive CheckRet where
  | pair (ok : Bool) (reason : Option String)
  | bool (b : Bool)
deriving DecidableEq

/-- Observable outcome of submitting one readiness check to the worker
pool in `_eval_checks`: `fut.result(timeout=...)` returns the value,
raises `FuturesTimeout`, or re-raises the exception the check raised
(with message `msg`). -/
inductive CheckBehavior where
  | ret (r : CheckRet)
  | timeout
  | raise (msg : String)
deriving DecidableEq

/-- One entry of the per-check detail map `_eval_checks` builds:
`{"ok": ok, "reason": reason, "duration_ms": ...}`.  `duration_ms` is a
wall-clock measurement with no functional content and is not modelled. -/
structure CheckDetail where
  ok : Bool
  reason : Option String
deriving DecidableEq

/-- `HealthServer._safe_check_wrapper`: a 2-tuple is unpacked, `ok` is
coerced to bool, and a reason of `""` or `None` becomes `None`; any other
return value is treated as a bare boolean with a null reason. -/
def safe_check_wrapper : CheckRet → Bool × Option String
  | CheckRet.pair ok reason =>
      (ok, match reason with
           | none => none
           | some r => if r = "" then none else some r)
  | CheckRet.bool b => (b, none)

/-- Outcome classification in the result loop of `_eval_checks`: a normal
return goes through `_safe_check_wrapper`; `FuturesTimeout` is recorded as
`(False, "timeout")`; a raised exception `e` as `(False, f"error: {e}")`. -/
def evalOne : CheckBehavior → Bool × Option String
  | CheckBehavior.ret r => safe_check_wrapper r
  | CheckBehavior.timeout => (false, some "timeout")
  | CheckBehavior.raise m => (false, some ("error: " ++ m))

/-- The accumulation loop of `_eval_checks`: `all_ok` starts true and is
conjoined with each outcome; `details` is extended with one entry per
check, in evaluation order. -/
def evalLoop : List (String × CheckBehavior) → Bool →
    List (String × CheckDetail) → Bool × List (String × CheckDetail)
  | [], allOk, details => (allOk, details)
  | (name, b) :: rest, allOk, details =>
      let r := evalOne b
      evalLoop rest (allOk && r.1) (details ++ [(name, ⟨r.1, r.2⟩)])

/-- `HealthServer._eval_checks`: snapshot the registry under its lock
(the registry is a dict keyed by check name, so names are unique and the
futures dict preserves every entry); with no registered checks return
`(True, {})`; otherwise run the loop.  The pool only affects wall-clock
time, not the recorded outcomes. -/
def eval_checks (checks : List (String × CheckBehavior)) :
    Bool × List (String × CheckDetail) :=
  if checks.isEmpty then (true, [])
  else evalLoop checks true []

/-- Shared state of a `HealthServer`: constructor argument `prog`, the
`_ready` event, `_live_ok`, `_shutting_down`, `_started_at`,
`_last_sync_ts`, `_next_sync_in`, and the readiness-check registry
`_checks` (insertion-ordered, keyed by name). -/
structure HealthState where
  prog : String
  ready : Bool
  live_ok : Bool
  shutting_down : Bool
  started_at : Int
  last_sync_ts : Option Int
  next_sync_in : Option Int
  checks : List (String × CheckBehavior)

/-- `HealthServer.set_ready`. -/
def set_ready (s : HealthState) (r : Bool) : HealthState :=
  { s with ready := r }

/-- `HealthServer.set_shutting_down`. -/
def set_shutting_down (s : HealthState) (sd : Bool) : HealthState :=
  { s with shutting_down := sd }

/-- `HealthServer.set_liveness_ok`. -/
def set_liveness_ok (s : HealthState) (ok : Bool) : HealthState :=
  { s with live_ok := ok }

/-- `HealthServer.set_next_sync_in`: `None` stores `None`; an integer is
clamped with `max(0, int(seconds))`. -/
def set_next_sync_in (s : HealthState) (seconds : Option Int) : HealthState :=
  { s with next_sync_in :=
      match seconds with
      | none => none
      | some v => some (max 0 v) }

/-- `HealthServer.set_last_sync` with an explicit timestamp. -/
def set_last_sync (s : HealthState) (when_unix : Int) : HealthState :=
  { s with last_sync_ts := some when_unix }

/-- `HealthServer.register_readiness_check`: the registry is a dict, so
re-registering a name replaces the prior check in place and a new name is
appended. -/
def register_readiness_check (s : HealthState) (name : String)
    (fn : CheckBehavior) : HealthState :=
  { s with checks :=
      if (s.checks.map Prod.fst).contains name then
        s.checks.map (fun p => if p.1 = name then (name, fn) else p)
      else s.checks ++ [(name, fn)] }

/-- State-passing form of `_eval_checks`: the method reads the registry
under `_checks_lock` and builds local results; it assigns no attribute of
the server, so the post-state it leaves behind is the input state. -/
def eval_checksS (s : HealthState) :
    (Bool × List (String × CheckDetail)) × HealthState :=
  (eval_checks s.checks, s)

/-- `HealthServer._handle_healthz`: during shutdown report 200
`"shutting down"` (still alive), else 200 `"ok"` when live, else 503
`"not ok"`. -/
def handle_healthz (s : HealthState) : Nat × String :=
  if s.shutting_down then (200, "shutting down\n")
  else if s.live_ok then (200, "ok\n")
  else (503, "not ok\n")

/-- `d.get("reason") or "failed"` in `_handle_readyz`: a missing
(`None`) or empty-string reason falls back to `"failed"` (Python `or`
treats both as falsy). -/
def reasonOrFailed : Option String → String
  | none => "failed"
  | some r => if r = "" then "failed" else r

/-- The aggregation loop at the end of `_handle_readyz`: for each detail
entry whose `ok` is false, append `f"{name}: {reason}"` to the problem
list. -/
def problemsOf : List (String × CheckDetail) → List String
  | [] => []
  | (name, d) :: rest =>
      if d.ok then problemsOf rest
      else (name ++ ": " ++ reasonOrFailed d.reason) :: problemsOf rest

/-- `HealthServer._handle_readyz`: 503 `"shutting down"` during shutdown;
503 `"not ready"` when the ready flag is clear; otherwise evaluate the
checks — 200 `"ready"` when all pass, else 503 with the aggregated
problem list. -/
def handle_readyz (s : HealthState) : Nat × String :=
  if s.shutting_down then (503, "shutting down\n")
  else if !s.ready then (503, "not ready\n")
  else
    let r := eval_checks s.checks
    if r.1 then (200, "ready\n")
    else (503, "not ready: " ++ String.intercalate "; " (problemsOf r.2) ++ "\n")

/-- The JSON object `_status_payload` builds (serialization by
`json.dumps` is not modelled; the payload fields are). -/
structure StatusPayload where
  prog : String
  ready : Bool
  live : Bool
  shutting_down : Bool
  since : Int
  last_sync : Option Int
  next_sync_in : Option Int
  checks : List (String × CheckDetail)
deriving DecidableEq

/-- `HealthServer._status_payload`: snapshot the flags, evaluate the
checks for the details map, and report `ready and not shutting_down`. -/
def status_payload (s : HealthState) : StatusPayload :=
  { prog := s.prog
    ready := s.ready && !s.shutting_down
    live := s.live_ok
    shutting_down := s.shutting_down
    since := s.started_at
    last_sync := s.last_sync_ts
    next_sync_in := s.next_sync_in
    checks := (eval_checks s.checks).2 }

/-- An HTTP response produced by the handler: a plain-text response or
the JSON status payload. -/
inductive Response where
  | text (code : Nat) (body : String)
  | json (code : Nat) (payload : StatusPayload)
deriving DecidableEq

/-- The `do_GET` dispatch of the request handler built in
`HealthServer.start`. -/
def do_GET (s : HealthState) (path : String) : Response :=
  if path = "/healthz" ∨ path = "/livez" then
    Response.text (handle_healthz s).1 (handle_healthz s).2
  else if path = "/readyz" ∨ path = "/readiness" then
    Response.text (handle_readyz s).1 (handle_readyz s).2
  else if path = "/status" then
    Response.json 200 (status_payload s)
  else
    Response.text 404 "not found\n"

/-- Detail entry each behaviour should map to, written from the amended
claim wording: a normal `(ok, reason)` pair is recorded as-is except that
an empty-string reason is normalized to null; timeout gives
`"timeout"`; a raised exception with message `m` gives `"error: m"`; a
bare boolean gives a null reason. -/
def detailSpec : CheckBehavior → CheckDetail
  | CheckBehavior.ret (CheckRet.pair ok reason) =>
      ⟨ok, match reason with
           | none => none
           | some r => if r = "" then none else some r⟩
  | CheckBehavior.ret (CheckRet.bool b) => ⟨b, none⟩
  | CheckBehavior.timeout => ⟨false, some "timeout"⟩
  | CheckBehavior.raise m => ⟨false, some ("error: " ++ m)⟩

/-- Health state used in witnesses: ready, live, not shutting down, with
one failing and one passing registered check. -/
def sampleReadyState : HealthState :=
  { prog := "kess"
    ready := true
    live_ok := true
    shutting_down := false
    started_at := 5
    last_sync_ts := none
    next_sync_in := some 30
    checks := [("db", CheckBehavior.ret (CheckRet.pair false (some "db down"))),
               ("cache", CheckBehavior.ret (CheckRet.bool true))] }

/-- Health state used in witnesses: shutting down with the live flag
still true. -/
def sampleShuttingDownState : HealthState :=
  { sampleReadyState with shutting_down := true }

/-! ## Metrics server (`src/kess/health/metrics.py`) -/

/-- State of `MetricsServer`: the `_started` latch and the metric
attributes, all `None` until `start()` defines them.  A counter or gauge
is its current value; the sync-duration histogram is its list of observed
durations. -/
structure MetricsServer where
  started : Bool
  secrets_synced : Option Int
  sync_failures : Option Int
  sync_duration : Option (List Int)

/-- `MetricsServer.__init__`: nothing started, no metric objects yet. -/
def initMetrics : MetricsServer :=
  { started := false
    secrets_synced := none
    sync_failures := none
    sync_duration := none }

/-- `MetricsServer.start` (under `_lock`, idempotent): a second call
returns immediately; the first call creates the metric objects and sets
the latch. -/
def metricsStart (m : MetricsServer) : MetricsServer :=
  if m.started then m
  else
    { started := true
      secrets_synced := some 0
      sync_failures := some 0
      sync_duration := some [] }

/-- The value `MetricsServer.sync_timer` returns: the histogram timing
context from `self.sync_duration.time()`, or `contextlib.nullcontext()`
when metrics are not started or the histogram does not exist. -/
inductive SyncTimerCtx where
  | histogramTimer
  | nullcontext
deriving DecidableEq

/-- `MetricsServer.sync_timer`: `if self._started and self.sync_duration
is not None: return self.sync_duration.time()`, else a null context. -/
def sync_timer (m : MetricsServer) : SyncTimerCtx :=
  if m.started && m.sync_duration.isSome then SyncTimerCtx.histogramTimer
  else SyncTimerCtx.nullcontext

/-- Effect on the metric state of running a block of duration `d` under
the context `sync_timer` returned: the histogram timer observes `d` into
the sync-duration histogram; a null context does nothing. -/
def runTimed (c : SyncTimerCtx) (m : MetricsServer) (d : Int) : MetricsServer :=
  match c with
  | SyncTimerCtx.histogramTimer =>
      { m with sync_duration := m.sync_duration.map (fun obs => obs ++ [d]) }
  | SyncTimerCtx.nullcontext => m

end Kess

namespace Kess

/-! ## Shutdown manager lemmas -/

/-- The hook loop calls every hook in order, whether or not it raises. -/
theorem runHooks_eq_map (hs : List Hook) : runHooks hs = hs.map Hook.id := by
  induction hs with
  | nil => rfl
  | cons h rest ih =>
      cases hres : h.result <;> simp [runHooks, hres, ih]

/-- `request_shutdown` never changes the registered hook list. -/
theorem request_shutdown_hooks (s : ShutdownState) (t : Int) :
    (request_shutdown s t).shutdown_hooks = s.shutdown_hooks := by
  unfold request_shutdown
  split <;> rfl

/-- `execute_shutdown` never changes the registered hook list. -/
theorem execute_shutdown_hooks (s : ShutdownState) :
    (execute_shutdown s).1.shutdown_hooks = s.shutdown_hooks := by
  unfold execute_shutdown
  split <;> rfl

/-- Each hook identifier occurs in the event trace at most once per
`execute` event times its multiplicity in the registered hook list. -/
theorem runEvents_count_le (events : List Event) :
    ∀ (s : ShutdownState) (i : Nat),
      ((runEvents s events).2.count i) ≤
        events.count Event.execute * ((s.shutdown_hooks.map Hook.id).count i) := by
  induction events with
  | nil => intro s i; simp [runEvents]
  | cons e rest ih =>
      intro s i
      cases e with
      | request t =>
          have h := ih (request_shutdown s t) i
          rw [request_shutdown_hooks] at h
          simpa [runEvents, List.count_cons] using h
      | execute =>
          have htail := ih (execute_shutdown s).1 i
          rw [execute_shutdown_hooks] at htail
          have hhead : ((execute_shutdown s).2.count i) ≤
              ((s.shutdown_hooks.map Hook.id).count i) := by
            unfold execute_shutdown
            split
            · simp [runHooks_eq_map]
            · simp
          calc ((runEvents s (Event.execute :: rest)).2.count i)
              = ((execute_shutdown s).2.count i) + ((runEvents (execute_shutdown s).1 rest).2.count i) := by
                simp [runEvents, List.count_append]
            _ ≤ ((s.shutdown_hooks.map Hook.id).count i) +
                rest.count Event.execute * ((s.shutdown_hooks.map Hook.id).count i) :=
                Nat.add_le_add hhead htail
            _ = (rest.count Event.execute + 1) * ((s.shutdown_hooks.map Hook.id).count i) := by
                ring
            _ = (Event.execute :: rest).count Event.execute * ((s.shutdown_hooks.map Hook.id).count i) := by
                simp [List.count_cons]

/-! ## Claim theorems: shutdown manager -/

/-- C1 counterexample: with one registered hook, a single accepted request
followed by two `execute_shutdown` calls runs the hook twice —
`execute_shutdown` latches only on `_shutdown_requested`, never on
completion, so repeated execute calls re-run the hooks. -/
theorem execute_twice_runs_hook_twice :
    ¬ (((runEvents oneHookManager doubleExecuteEvents).2.count 0) ≤ 1) := by
  decide

/-- C1 (amended): for every event sequence containing at most one
`execute_shutdown` call, and distinct registered hooks, no hook action is
executed a second time — duplicate `request_shutdown` calls and signal
deliveries are ignored by the requested latch. -/
theorem hooks_run_at_most_once_single_execute (s : ShutdownState)
    (events : List Event)
    (hex : events.count Event.execute ≤ 1)
    (hnodup : (s.shutdown_hooks.map Hook.id).Nodup) :
    ∀ i : Nat, ((runEvents s events).2.count i) ≤ 1 := by
  intro i
  have hcount := runEvents_count_le events s i
  have hone : ((s.shutdown_hooks.map Hook.id).count i) ≤ 1 :=
    List.nodup_iff_count_le_one.mp hnodup i
  calc ((runEvents s events).2.count i)
      ≤ events.count Event.execute * ((s.shutdown_hooks.map Hook.id).count i) := hcount
    _ ≤ 1 * 1 := Nat.mul_le_mul hex hone
    _ = 1 := by norm_num

/-- Witness for C1 (amended) at a concrete manager and event list. -/
theorem hooks_run_at_most_once_single_execute_witness :
    (singleExecuteEvents.count Event.execute ≤ 1) ∧
    ((twoHookManager.shutdown_hooks.map Hook.id).Nodup) ∧
    (∀ i : Nat, ((runEvents twoHookManager singleExecuteEvents).2.count i) ≤ 1) :=
  ⟨by decide, by decide,
    hooks_run_at_most_once_single_execute twoHookManager singleExecuteEvents
      (by decide) (by decide)⟩

/-- C2: once shutdown is requested, `execute_shutdown` returns normally
(the per-hook `try/except` means no hook exception propagates: the result
is the normal pair below), calls every registered hook — in particular
every hook after a raising one — and sets the complete flag. -/
theorem execute_shutdown_isolates_hook_failures (s : ShutdownState)
    (hreq : s.shutdown_requested = true) :
    (execute_shutdown s).2 = s.shutdown_hooks.map Hook.id ∧
    (execute_shutdown s).1 = { s with shutdown_complete := true } ∧
    (∀ pre h post, s.shutdown_hooks = pre ++ h :: post →
      ∀ h2 ∈ post, h2.id ∈ (execute_shutdown s).2) := by
  refine ⟨?_, ?_, ?_⟩
  · simp [execute_shutdown, hreq, runHooks_eq_map]
  · simp [execute_shutdown, hreq]
  · intro pre h post hsplit h2 hmem
    simp only [execute_shutdown, hreq, if_pos, runHooks_eq_map]
    rw [hsplit]
    simp only [List.map_append, List.map_cons, List.mem_append, List.mem_cons]
    exact Or.inr (Or.inr (List.mem_map_of_mem Hook.id hmem))

/-- Witness for C2: first hook raises `"boom"`, second hook still runs and
the sequence reaches complete. -/
theorem execute_shutdown_isolates_hook_failures_witness :
    raisingHookManager.shutdown_requested = true ∧
    (1 : Nat) ∈ (execute_shutdown raisingHookManager).2 ∧
    (execute_shutdown raisingHookManager).1.shutdown_complete = true :=
  ⟨rfl,
    (execute_shutdown_isolates_hook_failures raisingHookManager rfl).2.2
      [] ⟨0, Except.error "boom"⟩ [⟨1, Except.ok ()⟩] rfl ⟨1, Except.ok ()⟩ (by simp),
    by rw [(execute_shutdown_isolates_hook_failures raisingHookManager rfl).2.1]⟩

/-- C3: calling `execute_shutdown` while shutdown has not been requested
is a no-op: no hook is executed and the whole state — in particular both
flags — is unchanged. -/
theorem execute_shutdown_idle_noop (s : ShutdownState)
    (hreq : s.shutdown_requested = false) :
    execute_shutdown s = (s, []) ∧
    (execute_shutdown s).1.shutdown_requested = false ∧
    (execute_shutdown s).1.shutdown_complete = s.shutdown_complete := by
  refine ⟨?_, ?_, ?_⟩ <;> simp [execute_shutdown, hreq]

/-- Witness for C3 at a freshly initialized manager with one hook. -/
theorem execute_shutdown_idle_noop_witness :
    oneHookManager.shutdown_requested = false ∧
    execute_shutdown oneHookManager = (oneHookManager, []) :=
  ⟨rfl, (execute_shutdown_idle_noop oneHookManager rfl).1⟩

/-- C10: with a positive grace period and a clock that has not gone
backwards past the recorded request time, the remaining grace time is
always within `[0, g]`, and equals `g` exactly while no request has been
accepted (`_shutdown_start_time` still `None`). -/
theorem get_remaining_grace_time_bounds (s : ShutdownState) (now : Int)
    (hg : 0 < s.grace_period_seconds)
    (hclock : ∀ t, s.shutdown_start_time = some t → t ≤ now) :
    (s.shutdown_start_time = none →
      get_remaining_grace_time s now = s.grace_period_seconds) ∧
    0 ≤ get_remaining_grace_time s now ∧
    get_remaining_grace_time s now ≤ s.grace_period_seconds := by
  refine ⟨?_, ?_, ?_⟩
  · intro hnone
    simp [get_remaining_grace_time, hnone]
  · unfold get_remaining_grace_time
    cases hst : s.shutdown_start_time with
    | none => exact le_of_lt hg
    | some t =>
        by_cases ht : t = 0
        · simp [ht]
          exact le_of_lt hg
        · simp [ht]
  · unfold get_remaining_grace_time
    cases hst : s.shutdown_start_time with
    | none => exact le_refl _
    | some t =>
        by_cases ht : t = 0
        · simp [ht]
        · have hle : t ≤ now := hclock t hst
          simp only [ht, if_false]
          have h1 : s.grace_period_seconds - (now - t) ≤ s.grace_period_seconds := by
            omega
          exact max_le (le_of_lt hg) h1

/-- Witness for C10: a manager whose request was accepted at instant 3,
polled at instant 100. -/
theorem get_remaining_grace_time_bounds_witness :
    (0 : Int) < raisingHookManager.grace_period_seconds ∧
    0 ≤ get_remaining_grace_time raisingHookManager 100 ∧
    get_remaining_grace_time raisingHookManager 100 ≤
      raisingHookManager.grace_period_seconds :=
  ⟨by decide,
    (get_remaining_grace_time_bounds raisingHookManager 100 (by decide)
      (by intro t ht; simp [raisingHookManager] at ht; omega)).2⟩

/-! ## Health server lemmas -/

/-- The code-side per-entry detail equals the claim-side classification. -/
theorem evalOne_detailSpec (b : CheckBehavior) :
    (⟨(evalOne b).1, (evalOne b).2⟩ : CheckDetail) = detailSpec b := by
  cases b with
  | ret r => cases r <;> rfl
  | timeout => rfl
  | raise m => rfl

/-- Closed form of the `_eval_checks` accumulation loop. -/
theorem evalLoop_spec (l : List (String × CheckBehavior)) :
    ∀ (acc : Bool) (details : List (String × CheckDetail)),
      evalLoop l acc details =
        (acc && (l.map (fun p => (detailSpec p.2).ok)).all id,
         details ++ l.map (fun p => (p.1, detailSpec p.2))) := by
  induction l with
  | nil => intro acc details; simp [evalLoop]
  | cons hd rest ih =>
      intro acc details
      obtain ⟨name, b⟩ := hd
      have hdet : (⟨(evalOne b).1, (evalOne b).2⟩ : CheckDetail) = detailSpec b :=
        evalOne_detailSpec b
      have hok : (evalOne b).1 = (detailSpec b).ok := by
        rw [← hdet]
      simp only [evalLoop, List.map_cons, List.all_cons, id]
      rw [ih, hdet, hok, Bool.and_assoc, List.append_assoc]
      rfl

/-- Closed form of `_eval_checks`: the detail map records each registered
check under the claimed classification, in order, and the aggregate flag
is the conjunction of the individual outcomes. -/
theorem eval_checks_eq (checks : List (String × CheckBehavior)) :
    eval_checks checks =
      ((checks.map (fun p => (detailSpec p.2).ok)).all id,
       checks.map (fun p => (p.1, detailSpec p.2))) := by
  unfold eval_checks
  cases checks with
  | nil => simp
  | cons hd rest => simp [evalLoop_spec]

/-- The problem-aggregation loop lists exactly the failing details, in
order, each rendered as `name: reason`. -/
theorem problemsOf_eq_filter_map (l : List (String × CheckDetail)) :
    problemsOf l =
      (l.filter (fun q => !q.2.ok)).map
        (fun q => q.1 ++ ": " ++ reasonOrFailed q.2.reason) := by
  induction l with
  | nil => rfl
  | cons hd rest ih =>
      obtain ⟨name, d⟩ := hd
      cases hok : d.ok <;> simp [problemsOf, List.filter, hok, ih]

/-- Routing: `/readyz` and `/readiness` dispatch to `_handle_readyz`. -/
theorem do_GET_readyz (s : HealthState) (p : String)
    (hp : p = "/readyz" ∨ p = "/readiness") :
    do_GET s p = Response.text (handle_readyz s).1 (handle_readyz s).2 := by
  rcases hp with rfl | rfl <;> rfl

/-- Routing: `/healthz` and `/livez` dispatch to `_handle_healthz`. -/
theorem do_GET_healthz (s : HealthState) (p : String)
    (hp : p = "/healthz" ∨ p = "/livez") :
    do_GET s p = Response.text (handle_healthz s).1 (handle_healthz s).2 := by
  rcases hp with rfl | rfl <;> rfl

/-! ## Claim theorems: health server -/

/-- C4: a GET of `/readyz` or `/readiness` returns 503 `"shutting down"`
during shutdown; else 503 `"not ready"` when the ready flag is clear;
else 200 `"ready"` when every registered check passes; else 503 with a
body listing exactly the failing checks, in evaluation order, each as
`name: reason`. -/
theorem readyz_response_spec (s : HealthState) (p : String)
    (hp : p = "/readyz" ∨ p = "/readiness") :
    (s.shutting_down = true → do_GET s p = Response.text 503 "shutting down\n") ∧
    (s.shutting_down = false → s.ready = false →
      do_GET s p = Response.text 503 "not ready\n") ∧
    (s.shutting_down = false → s.ready = true →
      (eval_checks s.checks).1 = true →
      do_GET s p = Response.text 200 "ready\n") ∧
    (s.shutting_down = false → s.ready = true →
      (eval_checks s.checks).1 = false →
      do_GET s p = Response.text 503
        ("not ready: " ++ String.intercalate "; "
          (((eval_checks s.checks).2.filter (fun q => !q.2.ok)).map
            (fun q => q.1 ++ ": " ++ reasonOrFailed q.2.reason)) ++ "\n")) := by
  rw [do_GET_readyz s p hp]
  refine ⟨?_, ?_, ?_, ?_⟩
  · intro hsd
    simp [handle_readyz, hsd]
  · intro hsd hr
    simp [handle_readyz, hsd, hr]
  · intro hsd hr hall
    simp [handle_readyz, hsd, hr, hall]
  · intro hsd hr hall
    simp only [handle_readyz, hsd, hr, hall, Bool.not_true, Bool.false_eq_true,
      if_false, if_true]
    rw [problemsOf_eq_filter_map]

/-- Witness for C4: ready state with a failing `db` check and a passing
`cache` check yields the aggregated 503 body. -/
theorem readyz_response_spec_witness :
    do_GET sampleReadyState "/readyz" =
      Response.text 503 "not ready: db: db down\n" := by
  have h := (readyz_response_spec sampleReadyState "/readyz" (Or.inl rfl)).2.2.2
    rfl rfl (by decide)
  rw [h]
  decide

/-- C5: a GET of `/healthz` or `/livez` returns 200 `"shutting down"`
whenever the shutdown flag is set — never a non-200 during shutdown, even
with the live flag untouched — else 503 `"not ok"` when the live flag is
false, else 200 `"ok"`. -/
theorem healthz_response_spec (s : HealthState) (p : String)
    (hp : p = "/healthz" ∨ p = "/livez") :
    (s.shutting_down = true → do_GET s p = Response.text 200 "shutting down\n") ∧
    (s.shutting_down = false → s.live_ok = false →
      do_GET s p = Response.text 503 "not ok\n") ∧
    (s.shutting_down = false → s.live_ok = true →
      do_GET s p = Response.text 200 "ok\n") := by
  rw [do_GET_healthz s p hp]
  refine ⟨?_, ?_, ?_⟩
  · intro hsd
    simp [handle_healthz, hsd]
  · intro hsd hl
    simp [handle_healthz, hsd, hl]
  · intro hsd hl
    simp [handle_healthz, hsd, hl]

/-- Witness for C5: shutting down with the live flag still true yields
200 `"shutting down"` on `/healthz`. -/
theorem healthz_response_spec_witness :
    sampleShuttingDownState.shutting_down = true ∧
    sampleShuttingDownState.live_ok = true ∧
    do_GET sampleShuttingDownState "/healthz" =
      Response.text 200 "shutting down\n" :=
  ⟨rfl, rfl,
    (healthz_response_spec sampleShuttingDownState "/healthz" (Or.inl rfl)).1 rfl⟩

/-- C6 counterexample: a check returning the normal pair
`(True, "")` is recorded with reason `None`, not with the empty string
it returned — `_safe_check_wrapper` normalizes `""` to `None`, so a
normal pair is not recorded as-is. -/
theorem empty_reason_not_recorded_as_is :
    (eval_checks [("c", CheckBehavior.ret (CheckRet.pair true (some "")))]).2 =
      [("c", ⟨true, none⟩)] ∧
    (eval_checks [("c", CheckBehavior.ret (CheckRet.pair true (some "")))]).2 ≠
      [("c", ⟨true, some ""⟩)] := by
  decide

/-- C6 (amended): one evaluation classifies each outcome as claimed —
normal pair recorded as-is except an empty-string reason is normalized to
null, timeout as `(false, "timeout")`, raised exception as
`(false, "error: m")`, bare boolean as `(b, null)` — the aggregate flag
is the conjunction of the individual ok values, and zero registered
checks evaluate to ok with an empty detail map. -/
theorem eval_checks_classification :
    (∀ checks : List (String × CheckBehavior),
      (eval_checks checks).2 = checks.map (fun p => (p.1, detailSpec p.2)) ∧
      (eval_checks checks).1 =
        (checks.map (fun p => (detailSpec p.2).ok)).all id) ∧
    eval_checks [] = (true, []) := by
  refine ⟨fun checks => ?_, rfl⟩
  rw [eval_checks_eq]
  exact ⟨rfl, rfl⟩

/-- C7: evaluating the readiness checks leaves every field of the shared
health state unchanged — the flags, the timestamps, the sync ETA and the
check registry. -/
theorem eval_checks_preserves_state (s : HealthState) :
    (eval_checksS s).2.ready = s.ready ∧
    (eval_checksS s).2.live_ok = s.live_ok ∧
    (eval_checksS s).2.shutting_down = s.shutting_down ∧
    (eval_checksS s).2.started_at = s.started_at ∧
    (eval_checksS s).2.last_sync_ts = s.last_sync_ts ∧
    (eval_checksS s).2.next_sync_in = s.next_sync_in ∧
    (eval_checksS s).2.checks = s.checks :=
  ⟨rfl, rfl, rfl, rfl, rfl, rfl, rfl⟩

/-- C8: `set_next_sync_in` stores `max 0 s` for an integer (hence a
non-negative value), stores `None` for `None`, and `/status` reports
exactly the stored value in `next_sync_in`. -/
theorem set_next_sync_in_clamps :
    (∀ (s : HealthState) (v : Int),
      (set_next_sync_in s (some v)).next_sync_in = some (max 0 v) ∧
      0 ≤ max 0 v) ∧
    (∀ s : HealthState, (set_next_sync_in s none).next_sync_in = none) ∧
    (∀ s : HealthState, (status_payload s).next_sync_in = s.next_sync_in) :=
  ⟨fun _ v => ⟨rfl, le_max_left 0 v⟩, fun _ => rfl, fun _ => rfl⟩

/-! ## Claim theorems: metrics server -/

/-- C9: before `start()` has set the started latch, `sync_timer` returns
the null context (a total computation — nothing raises) and timing an
operation under it records nothing: the metric state is unchanged. -/
theorem sync_timer_noop_before_start (m : MetricsServer)
    (h : m.started = false) :
    sync_timer m = SyncTimerCtx.nullcontext ∧
    (∀ d : Int, runTimed (sync_timer m) m d = m) := by
  constructor
  · simp [sync_timer, h]
  · intro d
    simp [sync_timer, h, runTimed]

/-- Witness for C9: a freshly constructed metrics server. -/
theorem sync_timer_noop_before_start_witness :
    initMetrics.started = false ∧
    sync_timer initMetrics = SyncTimerCtx.nullcontext ∧
    runTimed (sync_timer initMetrics) initMetrics 5 = initMetrics :=
  ⟨rfl, (sync_timer_noop_before_start initMetrics rfl).1,
    (sync_timer_noop_before_start initMetrics rfl).2 5⟩

end Kess
